import Mathlib

/-!
Verification of the Small-Inventory-Tracking backend (`backend.js`).

The development shallowly embeds the server logic:
* the bcrypt and jsonwebtoken collaborators are modelled as executable
  functions with the algebraic properties the code relies on (a hash is
  checkable against the password that produced it; a token is a signed,
  self-contained record of its claims and absolute expiry);
* Mongoose collections are lists of records with store-assigned numeric
  ids (`_id` is unique in MongoDB, so lookup/update/delete by id touch at
  most one record);
* each Express handler becomes a function from request data and current
  state to the new state and an HTTP-level response value.

JSON `undefined`-vs-present distinctions are modelled with `Option`:
`none` is an absent field, `some s` a present string (possibly empty).
-/

/-- Model of a bcrypt hash: the salt plus the hashed password.
`bcrypt.compare` succeeds exactly on the password the hash was derived
from, independently of the salt. -/
structure BHash where
  salt : Nat
  pw : String
deriving DecidableEq

/-- Model of `bcrypt.hash(password, salt)`. -/
def bcryptHash (password : String) (salt : Nat) : BHash := ⟨salt, password⟩

/-- Model of `bcrypt.compare(password, hash)`. -/
def bcryptCompare (password : String) (h : BHash) : Bool := password == h.pw

/-- The token claim payload `{ user: { id, username } }` built at login
(backend.js line 123). -/
structure Claims where
  userId : Nat
  username : String
deriving DecidableEq

/-- Model of a signed JWT: payload, the secret it was signed with
(standing in for the signature), and the absolute expiry instant. -/
structure Token where
  payload : Claims
  secret : String
  exp : Nat
deriving DecidableEq

/-- Model of `jwt.sign(payload, secret, { expiresIn: ttl })`:
expiry is absolute, `now + ttl`. -/
def jwtSign (payload : Claims) (secret : String) (now ttl : Nat) : Token :=
  ⟨payload, secret, now + ttl⟩

inductive VerifyResult where
  | ok (claims : Claims)
  | invalid
deriving DecidableEq

/-- Core of `jwt.verify`: the signature must match the given secret and
the token must not be expired. -/
def verifyTok (t : Token) (secret : String) (now : Nat) : VerifyResult :=
  if t.secret = secret ∧ now < t.exp then .ok t.payload else .invalid

/-! ### The JWT wire format

Real tokens travel as compact strings; the model serialises a `Token`
into a string (unary numbers terminated by a dot, length-prefixed raw
strings) and `verifyString` parses before checking, so that malformed
strings are `invalid`, exactly as `jwt.verify` treats garbage input. -/

def encNat (n : Nat) : List Char := List.replicate n 'I' ++ ['.']

def encStr (s : String) : List Char := encNat s.length ++ s.data

def tokenChars (t : Token) : List Char :=
  encNat t.payload.userId ++ encNat t.exp ++ encStr t.payload.username ++ encStr t.secret

/-- Serialisation of a token (what `jwt.sign` actually returns). -/
def tokenString (t : Token) : String := String.mk (tokenChars t)

def readUnary : List Char → Option (Nat × List Char)
  | [] => none
  | c :: rest =>
    if c = '.' then some (0, rest)
    else if c = 'I' then (readUnary rest).map (fun p => (p.1 + 1, p.2))
    else none

def readChunk : Nat → List Char → Option (List Char × List Char)
  | 0, rest => some ([], rest)
  | _ + 1, [] => none
  | n + 1, c :: rest => (readChunk n rest).map (fun p => (c :: p.1, p.2))

def parseToken (s : String) : Option Token := do
  let (uid, r1) ← readUnary s.data
  let (exp, r2) ← readUnary r1
  let (ulen, r3) ← readUnary r2
  let (uname, r4) ← readChunk ulen r3
  let (slen, r5) ← readUnary r4
  let (sec, r6) ← readChunk slen r5
  if r6 = [] then some ⟨⟨uid, String.mk uname⟩, String.mk sec, exp⟩ else none

/-- Model of `jwt.verify(tokenString, secret, cb)`: parse, then check
signature and expiry; any malformation is an error. -/
def verifyString (s : String) (secret : String) (now : Nat) : VerifyResult :=
  match parseToken s with
  | none => .invalid
  | some t => verifyTok t secret now

/-- backend.js line 26. -/
def JWT_SECRET : String := "your-jwt-secret-key"

/-! ### Data model (Mongoose schemas, backend.js lines 41-55) -/

/-- UserSchema: `username` (required, unique), `password` (the bcrypt
hash string), plus the store-assigned `_id`. -/
structure User where
  id : Nat
  username : String
  password : BHash
deriving DecidableEq

/-- ItemSchema: `name` (required), `quantity` (required, default 0),
`description` (optional), `lastUpdated` (default Date.now), plus the
store-assigned `_id`. -/
structure Item where
  id : Nat
  name : String
  quantity : Int
  description : Option String
  lastUpdated : Nat
deriving DecidableEq

/-- The persistent state: the two MongoDB collections, plus the id
counters standing in for the store's id generator. -/
structure ServerState where
  users : List User
  items : List Item
  nextUserId : Nat
  nextItemId : Nat
deriving DecidableEq

/-- Model of `User.findOne(curly-braces username)`: first user with that
username. -/
def findUser (st : ServerState) (username : String) : Option User :=
  st.users.find? (fun u => u.username == username)

/-- Model of `Item.findById(id)`. -/
def findItem (st : ServerState) (id : Nat) : Option Item :=
  st.items.find? (fun it => it.id == id)

/-! ### HTTP-level responses -/

/-- The JSON error body: `{ message }`, or `{ message, error }` for the
500 catch-all responses. -/
structure ErrBody where
  message : String
  error : Option String
deriving DecidableEq

/-- A handler outcome: `res.status(s).json(body)` for a success body of
type `α`, or an error body. -/
inductive HResp (α : Type) where
  | ok (status : Nat) (body : α)
  | err (status : Nat) (body : ErrBody)
deriving DecidableEq

/-! ### Auth Gate (backend.js lines 59-74) -/

/-- Model of the JavaScript `header.split(' ')` (split on every single
space; an empty input yields `[""]`, a separator-free input yields the
whole string as its only word). -/
def splitSp : List Char → List (List Char)
  | [] => [[]]
  | c :: rest =>
    if c = ' ' then [] :: splitSp rest
    else
      match splitSp rest with
      | [] => [[c]]
      | w :: ws => (c :: w) :: ws

/-- The expression `authHeader.split(' ')[1]` for a non-empty header. -/
def headerSecondWord (h : String) : Option String :=
  ((splitSp h.data).map String.mk)[1]?

/-- Line 61, `const token = authHeader && authHeader.split(' ')[1]`, followed by the
`token == null` test (line 61-63): `none` here means the JS value was
`null`/`undefined`. An empty header string is falsy, so `&&` returns the
empty string itself, which is NOT `== null` — it flows on to `jwt.verify`. -/
def extractToken (authHeader : Option String) : Option String :=
  match authHeader with
  | none => none
  | some h => if h = "" then some "" else headerSecondWord h

inductive GateResult where
  | unauthenticated
  | forbidden
  | allowed (claims : Claims)
deriving DecidableEq

/-- The `authenticateToken` middleware: 401 when no token was supplied,
403 when `jwt.verify` rejects it, otherwise attach the claims and
continue. -/
def authenticateToken (authHeader : Option String) (now : Nat) : GateResult :=
  match extractToken authHeader with
  | none => .unauthenticated
  | some tok =>
    match verifyString tok JWT_SECRET now with
    | .ok claims => .allowed claims
    | .invalid => .forbidden

/-- How every protected route composes with the middleware: the gate
runs first; on rejection the handler never runs and the state is
untouched; on success the handler runs with the claims from the token
(`req.user`). -/
def runProtected {α : Type} (authHeader : Option String) (now : Nat)
    (handler : Claims → ServerState → ServerState × HResp α)
    (st : ServerState) : ServerState × HResp α :=
  match authenticateToken authHeader now with
  | .unauthenticated => (st, .err 401 ⟨"No token provided", none⟩)
  | .forbidden => (st, .err 403 ⟨"Token is invalid", none⟩)
  | .allowed claims => handler claims st

/-! ### Auth routes (public, backend.js lines 81-130) -/

/-- POST /api/auth/register. The salt is an input (model of
`bcrypt.genSalt(10)`, which is nondeterministic). -/
def register (st : ServerState) (username password : String) (salt : Nat) :
    ServerState × HResp String :=
  match findUser st username with
  | some _ => (st, .err 400 ⟨"User already exists", none⟩)
  | none =>
    let user : User := ⟨st.nextUserId, username, bcryptHash password salt⟩
    ({ st with users := st.users ++ [user], nextUserId := st.nextUserId + 1 },
     .ok 201 "User registered successfully")

/-- POST /api/auth/login. On success the body is the serialised token
(`res.json({ token })`), signed with a 1-hour expiry. -/
def login (st : ServerState) (username password : String) (now : Nat) :
    HResp String :=
  match findUser st username with
  | none => .err 400 ⟨"Invalid credentials", none⟩
  | some user =>
    if bcryptCompare password user.password then
      .ok 200 (tokenString (jwtSign ⟨user.id, user.username⟩ JWT_SECRET now 3600))
    else
      .err 400 ⟨"Invalid credentials", none⟩

/-! ### Item routes (protected, backend.js lines 137-201) -/

/-- The request body `{ name, quantity, description }` of the create and
update handlers; `none` models an absent (JS `undefined`) field. -/
structure ItemPatch where
  name : Option String
  quantity : Option Int
  description : Option String
deriving DecidableEq

/-- The message of the ValidationError Mongoose throws when `save()`
violates the schema's `required: true` on `name`. -/
def itemValidationMsg : String := "Item validation failed: name is required"

/-- POST /api/items: `new Item({name, quantity, description})` then
`save()`. Mongoose applies the schema default `quantity = 0` when the
field is absent, and its `required` validator rejects a missing or empty
`name` (for strings, `required` also rejects `""`); the thrown
ValidationError is caught by the handler's catch-all (500). -/
def createItem (body : ItemPatch) (now : Nat) (st : ServerState) :
    ServerState × HResp Item :=
  match body.name with
  | none => (st, .err 500 ⟨"Server error", some itemValidationMsg⟩)
  | some n =>
    if n = "" then (st, .err 500 ⟨"Server error", some itemValidationMsg⟩)
    else
      let item : Item := ⟨st.nextItemId, n, body.quantity.getD 0, body.description, now⟩
      ({ st with items := st.items ++ [item], nextItemId := st.nextItemId + 1 },
       .ok 201 item)

/-- The field mutations of the update handler (backend.js lines 175-178):
`item.name = name || item.name` (falsy — absent or empty — keeps the old
value), `item.quantity = quantity !== undefined ? quantity : item.quantity`
(only absence keeps the old value, 0 is applied), same as `name` for
`description`, and `item.lastUpdated = Date.now()`. -/
def applyPatch (item : Item) (body : ItemPatch) (now : Nat) : Item :=
  { item with
    name := match body.name with
      | some n => if n = "" then item.name else n
      | none => item.name
    quantity := body.quantity.getD item.quantity
    description := match body.description with
      | some d => if d = "" then item.description else some d
      | none => item.description
    lastUpdated := now }

/-- PUT /api/items/:id: find by id, 404 when absent, otherwise mutate the
found document and `save()` it back (by its unique `_id`). -/
def updateItem (id : Nat) (body : ItemPatch) (now : Nat) (st : ServerState) :
    ServerState × HResp Item :=
  match findItem st id with
  | none => (st, .err 404 ⟨"Item not found", none⟩)
  | some item =>
    let item' := applyPatch item body now
    ({ st with items := st.items.map (fun it => if it.id == id then item' else it) },
     .ok 200 item')

/-- DELETE /api/items/:id: find by id, 404 when absent, otherwise
`item.deleteOne()` removes the document with that `_id`. -/
def deleteItem (id : Nat) (st : ServerState) : ServerState × HResp String :=
  match findItem st id with
  | none => (st, .err 404 ⟨"Item not found", none⟩)
  | some _ =>
    ({ st with items := st.items.filter (fun it => !(it.id == id)) },
     .ok 200 "Item removed successfully")

/-- GET /api/items (the handler body after the gate). -/
def listItems (st : ServerState) : ServerState × HResp (List Item) :=
  (st, .ok 200 st.items)

/-- The four protected routes as gate-plus-handler compositions. -/
def gatedList (auth : Option String) (now : Nat) (st : ServerState) :=
  runProtected auth now (fun _ s => listItems s) st

def gatedCreate (auth : Option String) (body : ItemPatch) (now : Nat) (st : ServerState) :=
  runProtected auth now (fun _ s => createItem body now s) st

def gatedUpdate (auth : Option String) (id : Nat) (body : ItemPatch) (now : Nat) (st : ServerState) :=
  runProtected auth now (fun _ s => updateItem id body now s) st

def gatedDelete (auth : Option String) (id : Nat) (now : Nat) (st : ServerState) :=
  runProtected auth now (fun _ s => deleteItem id s) st

/-! ### The catch-all boundary (backend.js lines 100-102, 127-129,
141-143, 159-161, 182-184, 198-200) -/

/-- A thrown JavaScript error, as seen by a catch block. -/
structure JsError where
  message : String
deriving DecidableEq

/-- Every handler's catch block:
`res.status(500).json({ message: 'Server error', error: err.message })`. -/
def boundaryCatch (e : JsError) : ErrBody := ⟨"Server error", some e.message⟩

/-- GET /api/items with the store call's outcome made explicit: a
successful `Item.find()` is serialised, a thrown storage error lands in
the catch block. -/
def listItemsWith (findAll : Except JsError (List Item)) : HResp (List Item) :=
  match findAll with
  | .ok items => .ok 200 items
  | .error e => .err 500 (boundaryCatch e)

/-- POST /api/auth/register with the store call's outcome made explicit
(lines 100-102: the same catch-all shape). -/
def registerWith (outcome : Except JsError Unit) : HResp String :=
  match outcome with
  | .ok _ => .ok 201 "User registered successfully"
  | .error e => .err 500 (boundaryCatch e)

/-- The empty initial state. -/
def st0 : ServerState := ⟨[], [], 0, 0⟩

/-! Concrete fixtures used to exercise the theorems on closed inputs. -/

def itemW : Item := ⟨7, "Widget", 5, some "a widget", 1⟩

def itemX : Item := ⟨3, "Gadget", 1, none, 0⟩

def stItems : ServerState := ⟨[], [itemW], 0, 8⟩

def stTwo : ServerState := ⟨[], [itemW, itemX], 0, 8⟩

def userW : User := ⟨0, "alice", bcryptHash "hunter2" 3⟩

def stUsers : ServerState := ⟨[userW], [], 1, 0⟩

/-- A token signed with the server secret, expiring at instant 2. -/
def tokW : Token := ⟨⟨1, "alice"⟩, JWT_SECRET, 2⟩

def patchW : ItemPatch := ⟨some "New", none, some ""⟩

/-! ## Helper lemmas -/

theorem readUnary_enc (n : Nat) (r : List Char) : readUnary (encNat n ++ r) = some (n, r) := by
  induction n with
  | zero => simp [encNat, readUnary]
  | succ n ih =>
    have hstep : encNat (n + 1) ++ r = 'I' :: (encNat n ++ r) := by
      simp [encNat, List.replicate_succ]
    rw [hstep, readUnary]
    rw [if_neg (by decide), if_pos rfl, ih]
    rfl

theorem readChunk_append (l r : List Char) : readChunk l.length (l ++ r) = some (l, r) := by
  induction l with
  | nil => rfl
  | cons c cs ih => simp [readChunk, ih]

theorem parseToken_tokenString (t : Token) : parseToken (tokenString t) = some t := by
  obtain ⟨⟨uid, uname⟩, sec, exp⟩ := t
  have hchars : tokenChars ⟨⟨uid, uname⟩, sec, exp⟩ =
      encNat uid ++ (encNat exp ++ (encNat uname.length ++ (uname.data ++
        (encNat sec.length ++ (sec.data ++ []))))) := by
    simp [tokenChars, encStr, List.append_assoc]
  have hdata : (tokenString ⟨⟨uid, uname⟩, sec, exp⟩).data =
      encNat uid ++ (encNat exp ++ (encNat uname.length ++ (uname.data ++
        (encNat sec.length ++ (sec.data ++ []))))) := hchars
  have hul : uname.length = uname.data.length := rfl
  have hsl : sec.length = sec.data.length := rfl
  simp only [parseToken, hdata, readUnary_enc, Option.bind_eq_bind, Option.some_bind,
    hul, hsl, readChunk_append]
  rfl

theorem verify_tokenString (t : Token) (secret : String) (now : Nat) :
    verifyString (tokenString t) secret now = verifyTok t secret now := by
  simp [verifyString, parseToken_tokenString]

theorem splitSp_no_space (l : List Char) (h : ' ' ∉ l) : splitSp l = [l] := by
  induction l with
  | nil => rfl
  | cons c cs ih =>
    have hc : ¬ c = ' ' := fun e => h (by simp [e])
    rw [splitSp, if_neg hc, ih (fun m => h (List.mem_cons_of_mem _ m))]

theorem splitSp_append (w r : List Char) (h : ' ' ∉ w) :
    splitSp (w ++ ' ' :: r) = w :: splitSp r := by
  induction w with
  | nil => simp [splitSp]
  | cons c cs ih =>
    have hc : ¬ c = ' ' := fun e => h (by simp [e])
    have ih2 := ih (fun m => h (List.mem_cons_of_mem _ m))
    rw [List.cons_append, splitSp, if_neg hc, ih2]

theorem updateItem_none (st : ServerState) (id : Nat) (body : ItemPatch) (now : Nat)
    (h : findItem st id = none) :
    updateItem id body now st = (st, .err 404 ⟨"Item not found", none⟩) := by
  simp [updateItem, h]

theorem deleteItem_none (st : ServerState) (id : Nat) (h : findItem st id = none) :
    deleteItem id st = (st, .err 404 ⟨"Item not found", none⟩) := by
  simp [deleteItem, h]

theorem register_duplicate (st : ServerState) (u p : String) (salt : Nat) (x : User)
    (h : findUser st u = some x) :
    register st u p salt = (st, .err 400 ⟨"User already exists", none⟩) := by
  simp [register, h]

/-! ## Claims -/

/-- C1: for every protected item operation, a missing credential header
fails with 401 Unauthenticated, a present but invalid or expired token
fails with 403 Forbidden (the handler never runs, the state is
untouched), and on a valid token the claims are attached and the
operation proceeds. -/
theorem C1_auth_gate {α : Type} (handler : Claims → ServerState → ServerState × HResp α)
    (now : Nat) (st : ServerState) :
    runProtected none now handler st = (st, .err 401 ⟨"No token provided", none⟩) ∧
    (∀ (h tok : String), extractToken (some h) = some tok →
      verifyString tok JWT_SECRET now = .invalid →
      runProtected (some h) now handler st = (st, .err 403 ⟨"Token is invalid", none⟩)) ∧
    (∀ (h tok : String) (claims : Claims), extractToken (some h) = some tok →
      verifyString tok JWT_SECRET now = .ok claims →
      runProtected (some h) now handler st = handler claims st) := by
  refine ⟨rfl, ?_, ?_⟩
  · intro h tok hext hver
    simp [runProtected, authenticateToken, hext, hver]
  · intro h tok claims hext hver
    simp [runProtected, authenticateToken, hext, hver]

/-- Closed instance of C1 on the list route: no header, a garbage token,
and a valid token. -/
theorem C1_auth_gate_witness :
    runProtected none 0 (fun _ s => listItems s) st0 =
      (st0, HResp.err 401 ⟨"No token provided", none⟩) ∧
    runProtected (some "Bearer garbage") 0 (fun _ s => listItems s) st0 =
      (st0, HResp.err 403 ⟨"Token is invalid", none⟩) ∧
    runProtected (some ("Bearer " ++ tokenString tokW)) 0 (fun _ s => listItems s) st0 =
      listItems st0 := by
  have h := C1_auth_gate (fun _ s => listItems s) 0 st0
  exact ⟨h.1,
    h.2.1 "Bearer garbage" "garbage" (by decide) (by decide),
    h.2.2 ("Bearer " ++ tokenString tokW) (tokenString tokW) ⟨1, "alice"⟩ (by decide) (by decide)⟩

/-- C2: updating an existing item leaves `name`/`description` unchanged
on a falsy or absent value (an explicit empty string cannot clear them),
leaves `quantity` unchanged only when it is absent (so 0 is applied),
and every successful update sets `lastUpdated` to the update time. -/
theorem C2_partial_update (st : ServerState) (id : Nat) (body : ItemPatch) (now : Nat)
    (item : Item) (hfind : findItem st id = some item) :
    (updateItem id body now st).2 = .ok 200 (applyPatch item body now) ∧
    ((body.name = none ∨ body.name = some "") →
      (applyPatch item body now).name = item.name) ∧
    ((body.description = none ∨ body.description = some "") →
      (applyPatch item body now).description = item.description) ∧
    (body.quantity = none → (applyPatch item body now).quantity = item.quantity) ∧
    (∀ q : Int, body.quantity = some q → (applyPatch item body now).quantity = q) ∧
    (applyPatch item body now).lastUpdated = now := by
  refine ⟨by simp [updateItem, hfind], ?_, ?_, ?_, ?_, rfl⟩
  · rintro (h | h) <;> simp [applyPatch, h]
  · rintro (h | h) <;> simp [applyPatch, h]
  · intro h; simp [applyPatch, h]
  · intro q h; simp [applyPatch, h]

/-- Closed instance of C2: an update carrying only `quantity = 0` sets
quantity to 0, keeps name and description, and refreshes `lastUpdated`. -/
theorem C2_partial_update_witness :
    (updateItem 7 ⟨none, some 0, none⟩ 99 stItems).2 =
      HResp.ok 200 (applyPatch itemW ⟨none, some 0, none⟩ 99) ∧
    (applyPatch itemW ⟨none, some 0, none⟩ 99).name = "Widget" ∧
    (applyPatch itemW ⟨none, some 0, none⟩ 99).description = some "a widget" ∧
    (applyPatch itemW ⟨none, some 0, none⟩ 99).quantity = 0 ∧
    (applyPatch itemW ⟨none, some 0, none⟩ 99).lastUpdated = 99 := by
  have h := C2_partial_update stItems 7 ⟨none, some 0, none⟩ 99 itemW (by decide)
  exact ⟨h.1, h.2.1 (Or.inl rfl), h.2.2.1 (Or.inl rfl), h.2.2.2.2.1 0 rfl, h.2.2.2.2.2⟩

/-- C3: registering a fresh (username, password) pair and then logging
in with the same pair succeeds, and the returned token is accepted by
verify (at any instant before expiry), with the username in its claims. -/
theorem C3_register_login_roundtrip (st : ServerState) (u p : String) (salt tl tv : Nat)
    (hnew : findUser st u = none) (hfresh : tv < tl + 3600) :
    (register st u p salt).2 = .ok 201 "User registered successfully" ∧
    ∃ tok : String, login (register st u p salt).1 u p tl = .ok 200 tok ∧
      ∃ claims : Claims, verifyString tok JWT_SECRET tv = .ok claims ∧
        claims.username = u := by
  refine ⟨by simp [register, hnew], ?_⟩
  refine ⟨tokenString (jwtSign ⟨st.nextUserId, u⟩ JWT_SECRET tl 3600), ?_,
    ⟨st.nextUserId, u⟩, ?_, rfl⟩
  · have hl : List.find? (fun x => x.username == u) st.users = none := hnew
    have hfound : findUser (register st u p salt).1 u =
        some ⟨st.nextUserId, u, bcryptHash p salt⟩ := by
      simp [register, hnew, findUser, List.find?_append, hl]
    simp [login, hfound, bcryptCompare, bcryptHash]
  · rw [verify_tokenString]
    simp [verifyTok, jwtSign, hfresh]

/-- Closed instance of C3 starting from the empty state. -/
theorem C3_register_login_roundtrip_witness :
    (register st0 "alice" "hunter2" 3).2 = HResp.ok 201 "User registered successfully" ∧
    ∃ tok : String, login (register st0 "alice" "hunter2" 3).1 "alice" "hunter2" 0 =
        HResp.ok 200 tok ∧
      ∃ claims : Claims, verifyString tok JWT_SECRET 5 = VerifyResult.ok claims ∧
        claims.username = "alice" :=
  C3_register_login_roundtrip st0 "alice" "hunter2" 3 0 5 (by decide) (by decide)

/-- C4: the login failure for a nonexistent username and the failure for
an existing username with a wrong password are the identical response
(status 400, message "Invalid credentials"), so the result does not
reveal whether the username exists. -/
theorem C4_login_indistinguishable (st : ServerState) (u1 p1 u2 p2 : String)
    (t1 t2 : Nat) (user : User)
    (h1 : findUser st u1 = none)
    (h2 : findUser st u2 = some user)
    (h3 : bcryptCompare p2 user.password = false) :
    login st u1 p1 t1 = .err 400 ⟨"Invalid credentials", none⟩ ∧
    login st u2 p2 t2 = .err 400 ⟨"Invalid credentials", none⟩ ∧
    login st u1 p1 t1 = login st u2 p2 t2 := by
  refine ⟨by simp [login, h1], by simp [login, h2, h3], ?_⟩
  simp [login, h1, h2, h3]

/-- Closed instance of C4: unknown user "bob" versus known user "alice"
with a wrong password. -/
theorem C4_login_indistinguishable_witness :
    login stUsers "bob" "x" 0 = HResp.err 400 ⟨"Invalid credentials", none⟩ ∧
    login stUsers "alice" "wrong" 9 = HResp.err 400 ⟨"Invalid credentials", none⟩ ∧
    login stUsers "bob" "x" 0 = login stUsers "alice" "wrong" 9 :=
  C4_login_indistinguishable stUsers "bob" "x" "alice" "wrong" 0 9 userW
    (by decide) (by decide) (by decide)

/-- C5, counterexample: the claim says a missing required field fails
with a validation error, but `quantity` is a required field of
ItemSchema and creating with `quantity` absent succeeds (the schema
default 0 applies) rather than failing. -/
theorem C5_counterexample :
    (createItem ⟨some "Widget", none, none⟩ 5 st0).2 =
      HResp.ok 201 ⟨0, "Widget", 0, none, 5⟩ ∧
    (createItem ⟨some "Widget", none, none⟩ 5 st0).2 ≠
      HResp.err 500 ⟨"Server error", some itemValidationMsg⟩ :=
  ⟨rfl, by decide⟩

/-- C5, amended: createItem requires a present, non-empty `name`
(otherwise the save fails with a validation error and the state is
unchanged); an absent `quantity` defaults to 0; a successful create
returns the created Item with `lastUpdated` set to the creation time,
and the item list becomes the old list with exactly that record
appended. -/
theorem C5_create_validation (st : ServerState) (body : ItemPatch) (now : Nat) :
    ((body.name = none ∨ body.name = some "") →
      createItem body now st = (st, .err 500 ⟨"Server error", some itemValidationMsg⟩)) ∧
    (∀ n : String, body.name = some n → n ≠ "" →
      ∃ item : Item, (createItem body now st).2 = .ok 201 item ∧
        item.name = n ∧ item.quantity = body.quantity.getD 0 ∧
        item.lastUpdated = now ∧
        (createItem body now st).1.items = st.items ++ [item]) := by
  constructor
  · rintro (h | h) <;> simp [createItem, h]
  · intro n hn hne
    refine ⟨⟨st.nextItemId, n, body.quantity.getD 0, body.description, now⟩, ?_, rfl, rfl, rfl, ?_⟩ <;>
      simp [createItem, hn, hne]

/-- Closed instance of the amended C5: a missing name is rejected with
the state unchanged; creating "Widget" with no quantity yields quantity
0, `lastUpdated` set, and the record appended to the (empty) list. -/
theorem C5_create_validation_witness :
    createItem ⟨none, some 5, none⟩ 9 st0 =
      (st0, HResp.err 500 ⟨"Server error", some itemValidationMsg⟩) ∧
    ∃ item : Item, (createItem ⟨some "Widget", none, none⟩ 5 st0).2 = HResp.ok 201 item ∧
      item.name = "Widget" ∧ item.quantity = (⟨some "Widget", none, none⟩ : ItemPatch).quantity.getD 0 ∧
      item.lastUpdated = 5 ∧
      (createItem ⟨some "Widget", none, none⟩ 5 st0).1.items = st0.items ++ [item] := by
  refine ⟨(C5_create_validation st0 ⟨none, some 5, none⟩ 9).1 (Or.inl rfl), ?_⟩
  exact (C5_create_validation st0 ⟨some "Widget", none, none⟩ 5).2 "Widget" rfl (by decide)

/-- C6: updateItem and deleteItem answer 404 NotFound and leave the
state unchanged when the id resolves to no item; after a successful
delete, deleting the same id again answers NotFound. -/
theorem C6_notfound_delete_twice (st : ServerState) (id : Nat) (body : ItemPatch) (now : Nat) :
    (findItem st id = none →
      updateItem id body now st = (st, .err 404 ⟨"Item not found", none⟩) ∧
      deleteItem id st = (st, .err 404 ⟨"Item not found", none⟩)) ∧
    (∀ item : Item, findItem st id = some item →
      (deleteItem id st).2 = .ok 200 "Item removed successfully" ∧
      deleteItem id (deleteItem id st).1 =
        ((deleteItem id st).1, .err 404 ⟨"Item not found", none⟩)) := by
  constructor
  · intro h
    exact ⟨updateItem_none st id body now h, deleteItem_none st id h⟩
  · intro item h
    constructor
    · simp [deleteItem, h]
    · apply deleteItem_none
      have hl : List.find? (fun it => it.id == id) st.items = some item := h
      simp only [deleteItem, findItem, hl]
      rw [List.find?_eq_none]
      intro x hx
      have hmem := (List.mem_filter.mp hx).2
      simpa using hmem

/-- Closed instance of C6: 404 on the empty store; delete then re-delete
of item 7. -/
theorem C6_notfound_delete_twice_witness :
    updateItem 5 patchW 9 st0 = (st0, HResp.err 404 ⟨"Item not found", none⟩) ∧
    deleteItem 5 st0 = (st0, HResp.err 404 ⟨"Item not found", none⟩) ∧
    (deleteItem 7 stItems).2 = HResp.ok 200 "Item removed successfully" ∧
    deleteItem 7 (deleteItem 7 stItems).1 =
      ((deleteItem 7 stItems).1, HResp.err 404 ⟨"Item not found", none⟩) := by
  have h1 := (C6_notfound_delete_twice st0 5 patchW 9).1 (by decide)
  have h2 := (C6_notfound_delete_twice stItems 7 patchW 9).2 itemW (by decide)
  exact ⟨h1.1, h1.2, h2.1, h2.2⟩

/-- C7: registering an already-present username fails with
DuplicateUser and persists nothing; a successful registration appends
exactly one user record, and repeating it yields the duplicate error
with the state unchanged. -/
theorem C7_duplicate_register (st : ServerState) (u p p2 : String) (salt salt2 : Nat)
    (hnew : findUser st u = none) :
    (register st u p salt).2 = .ok 201 "User registered successfully" ∧
    (register st u p salt).1.users = st.users ++ [⟨st.nextUserId, u, bcryptHash p salt⟩] ∧
    register (register st u p salt).1 u p2 salt2 =
      ((register st u p salt).1, .err 400 ⟨"User already exists", none⟩) := by
  have hl : List.find? (fun x => x.username == u) st.users = none := hnew
  have hfound : findUser (register st u p salt).1 u =
      some ⟨st.nextUserId, u, bcryptHash p salt⟩ := by
    simp [register, hnew, findUser, List.find?_append, hl]
  exact ⟨by simp [register, hnew], by simp [register, hnew],
    register_duplicate _ u p2 salt2 _ hfound⟩

/-- Closed instance of C7: register "alice" twice from the empty state. -/
theorem C7_duplicate_register_witness :
    (register st0 "alice" "pw" 3).2 = HResp.ok 201 "User registered successfully" ∧
    (register st0 "alice" "pw" 3).1.users = st0.users ++ [⟨st0.nextUserId, "alice", bcryptHash "pw" 3⟩] ∧
    register (register st0 "alice" "pw" 3).1 "alice" "pw2" 4 =
      ((register st0 "alice" "pw" 3).1, HResp.err 400 ⟨"User already exists", none⟩) :=
  C7_duplicate_register st0 "alice" "pw" "pw2" 3 4 (by decide)

/-- C8, counterexample: storage-layer faults are NOT reported
generically — the catch blocks put the thrown error's own message into
the response (`error: err.message`), so two different internal faults
produce two different responses and the persistence detail appears
verbatim in the result. -/
theorem C8_counterexample :
    listItemsWith (.error ⟨"MongoNetworkError: connect ECONNREFUSED 127.0.0.1:27017"⟩) =
      HResp.err 500 ⟨"Server error", some "MongoNetworkError: connect ECONNREFUSED 127.0.0.1:27017"⟩ ∧
    listItemsWith (.error ⟨"MongoNetworkError: connect ECONNREFUSED 127.0.0.1:27017"⟩) ≠
      listItemsWith (.error ⟨"MongoServerError: E11000 duplicate key"⟩) :=
  ⟨rfl, by decide⟩

/-- C8, amended: every error thrown inside a boundary operation is
caught and translated into the stable shape status 500, message "Server
error" — no unhandled fault crosses the boundary — but the underlying
error's message is included verbatim in the response's `error` field, so
internal persistence details do leak into the result. -/
theorem C8_boundary_catch (e : JsError) :
    listItemsWith (.error e) = HResp.err 500 ⟨"Server error", some e.message⟩ ∧
    registerWith (.error e) = HResp.err 500 ⟨"Server error", some e.message⟩ ∧
    (boundaryCatch e).message = "Server error" ∧
    (boundaryCatch e).error = some e.message :=
  ⟨rfl, rfl, rfl, rfl⟩

/-- C9, counterexample: the empty credential header contains no space
character, yet the gate answers Forbidden (403), not Unauthenticated:
the JavaScript `authHeader && authHeader.split(' ')[1]` evaluates to the
empty string, which is not `== null`, so it is handed to `jwt.verify`
and rejected there. -/
theorem C9_counterexample :
    authenticateToken (some "") 0 = GateResult.forbidden ∧
    ("" : String).data.contains ' ' = false ∧
    GateResult.forbidden ≠ GateResult.unauthenticated :=
  ⟨rfl, rfl, by decide⟩

/-- C9, amended: the gate never checks the scheme word — any header of
two space-separated words whose second word is a valid unexpired token
is allowed, whatever the first word is; a NON-EMPTY header with no space
fails as Unauthenticated; the empty header instead fails as Forbidden. -/
theorem C9_scheme_not_checked (h : String) (w1 w2 : List Char) (now : Nat) :
    (h.data = w1 ++ ' ' :: w2 → ' ' ∉ w1 → ' ' ∉ w2 →
      ∀ claims : Claims, verifyString (String.mk w2) JWT_SECRET now = .ok claims →
        authenticateToken (some h) now = .allowed claims) ∧
    (h ≠ "" → ' ' ∉ h.data → authenticateToken (some h) now = .unauthenticated) ∧
    authenticateToken (some "") now = .forbidden := by
  refine ⟨?_, ?_, rfl⟩
  · intro hdata hw1 hw2 claims hver
    have hne : h ≠ "" := by
      intro he
      rw [he] at hdata
      have : ([] : List Char) = w1 ++ ' ' :: w2 := hdata
      cases w1 <;> simp at this
    have hsplit : splitSp h.data = [w1, w2] := by
      rw [hdata, splitSp_append _ _ hw1, splitSp_no_space _ hw2]
    simp [authenticateToken, extractToken, hne, headerSecondWord, hsplit, hver]
  · intro hne hnosp
    have hsplit : splitSp h.data = [h.data] := splitSp_no_space _ hnosp
    simp [authenticateToken, extractToken, hne, headerSecondWord, hsplit]

/-- Closed instance of the amended C9: a non-Bearer scheme word with a
valid token is allowed; a spaceless non-empty header is 401. -/
theorem C9_scheme_not_checked_witness :
    authenticateToken (some ("Foo " ++ tokenString tokW)) 0 = GateResult.allowed ⟨1, "alice"⟩ ∧
    authenticateToken (some "Bearer") 0 = GateResult.unauthenticated := by
  have h1 := (C9_scheme_not_checked ("Foo " ++ tokenString tokW) "Foo".data (tokenString tokW).data 0).1
    (by decide) (by decide) (by decide) ⟨1, "alice"⟩ (by decide)
  have h2 := (C9_scheme_not_checked "Bearer" [] [] 0).2.1 (by decide) (by decide)
  exact ⟨h1, h2⟩

/-- C10: a successful updateItem answers with the patched item, whose id
is that of the targeted item; the user collection is untouched; the item
list keeps its length and every position holding an item with a
different id is unchanged. -/
theorem C10_update_frame (st : ServerState) (id : Nat) (body : ItemPatch) (now : Nat)
    (item : Item) (hfind : findItem st id = some item) :
    (updateItem id body now st).2 = .ok 200 (applyPatch item body now) ∧
    (applyPatch item body now).id = item.id ∧
    (updateItem id body now st).1.users = st.users ∧
    (updateItem id body now st).1.items.length = st.items.length ∧
    (∀ i : Nat, (∀ it : Item, st.items[i]? = some it → ¬ it.id = id) →
      (updateItem id body now st).1.items[i]? = st.items[i]?) := by
  refine ⟨by simp [updateItem, hfind], rfl, by simp [updateItem, hfind],
    by simp [updateItem, hfind], ?_⟩
  intro i hi
  have hl : List.find? (fun it => it.id == id) st.items = some item := hfind
  simp only [updateItem, findItem, hl]
  rw [List.getElem?_map]
  cases hx : st.items[i]? with
  | none => rfl
  | some it =>
    have hne : ¬ it.id = id := hi it hx
    simp [hne]

/-- Closed instance of C10: updating item 7 in a two-item store leaves
the other item (id 3, position 1) and the user list unchanged, and keeps
id 7 on the updated record. -/
theorem C10_update_frame_witness :
    (updateItem 7 patchW 42 stTwo).2 = HResp.ok 200 (applyPatch itemW patchW 42) ∧
    (applyPatch itemW patchW 42).id = itemW.id ∧
    (updateItem 7 patchW 42 stTwo).1.users = stTwo.users ∧
    (updateItem 7 patchW 42 stTwo).1.items.length = stTwo.items.length ∧
    (updateItem 7 patchW 42 stTwo).1.items[1]? = stTwo.items[1]? := by
  have h := C10_update_frame stTwo 7 patchW 42 itemW (by decide)
  refine ⟨h.1, h.2.1, h.2.2.1, h.2.2.2.1, h.2.2.2.2 1 ?_⟩
  intro it hx
  have hx2 : some itemX = some it := hx
  cases hx2
  decide
